import Mathlib

/-!
Shallow embedding of the SimuOrg browser client (session/authorization layer
and asynchronous fetch orchestration), translated from the JavaScript source:
the axios gateway client with its request interceptor, the upload form handler,
the Dashboard fetch-and-render logic, the login submit handler, and the App
view fetch.  Machine behaviour that JavaScript leaves implicit (truthiness,
nullish coalescing, HTTP 2xx) is made explicit.
-/

/-! ## Gateway client (axios instance with request interceptor) -/

/-- Request configuration as the interceptor sees it: the resolved url and the
optional Authorization header value (absent on a freshly built request). -/
structure RequestConfig where
  url : String
  authorization : Option String
deriving DecidableEq

/-- The configured base address of the axios instance. -/
def baseURL : String := "http://localhost:8000/api"

/-- The axios request interceptor: it reads the token from the persistent
store (null when absent) and, when the value is truthy (JavaScript string
truthiness: non-null and nonempty), sets the Authorization header to the
string Bearer followed by a space and the token; otherwise the configuration
passes through unchanged. -/
def interceptRequest (store : Option String) (cfg : RequestConfig) : RequestConfig :=
  match store with
  | none => cfg
  | some token =>
      if token = "" then cfg
      else { cfg with authorization := some ("Bearer " ++ token) }

/-- The operations exported by the gateway client module: fetchTestData,
loginUser and registerUser (each a single axios call on the configured
instance). -/
inductive GatewayOp where
  | fetchTestData
  | loginUser
  | registerUser
deriving DecidableEq

/-- The relative path each exported gateway operation requests. -/
def opPath : GatewayOp → String
  | .fetchTestData => "/sim/test-data"
  | .loginUser => "/auth/login"
  | .registerUser => "/auth/register"

/-- The exported gateway operations, as a list. -/
def gatewayOps : List GatewayOp :=
  [GatewayOp.fetchTestData, GatewayOp.loginUser, GatewayOp.registerUser]

/-- The relative paths of all exported gateway operations. -/
def gatewayPaths : List String := gatewayOps.map opPath

/-- The single request an exported gateway operation issues: axios resolves
the relative path against the configured base address and then runs the
request interceptor on the fresh configuration. -/
def gatewayRequest (op : GatewayOp) (store : Option String) : RequestConfig :=
  interceptRequest store { url := baseURL ++ opPath op, authorization := none }

/-! ## Upload form (raw fetch, outside the gateway client) -/

/-- The request the upload handler issues: fetch of the literal upload url
with method POST and the form-data body; the call sets no headers at all, so
in particular no Authorization header, whatever the token store holds. -/
structure UploadRequest where
  url : String
  method : String
  authorization : Option String
deriving DecidableEq

/-- Build the upload request as the source does.  The token store is in scope
in the browser but the handler never reads it. -/
def buildUploadRequest (_store : Option String) : UploadRequest :=
  { url := "http://localhost:8000/api/upload", method := "POST", authorization := none }

/-- A selected file handle (opaque; identified by its name here). -/
abbrev UploadFile := String

/-- The component state of the upload view: the selected file (null
initially) and the status text (empty initially). -/
structure UploadState where
  file : Option UploadFile
  status : String
deriving DecidableEq

/-- How the single fetch of a submit settles: an HTTP response with a status
code, or a transport exception. -/
inductive UploadOutcome where
  | response (status : Nat)
  | exception
deriving DecidableEq

/-- The ok flag of a fetch response: status code in the range 200 to 299. -/
def resOk (st : Nat) : Bool := decide (200 ≤ st ∧ st ≤ 299)

/-- The submit handler: if no file is selected it returns immediately;
otherwise it issues exactly one fetch and sets the status text from the
outcome (ok, non-ok, or exception).  Returns the final component state and
the number of network calls issued. -/
def handleUpload (s : UploadState) (o : UploadOutcome) : UploadState × Nat :=
  match s.file with
  | none => (s, 0)
  | some _ =>
      match o with
      | .response st =>
          if resOk st then ({ s with status := "Upload successful!" }, 1)
          else ({ s with status := "Upload failed. Please try again." }, 1)
      | .exception => ({ s with status := "Error connecting to the server." }, 1)

/-- The file-input change handler: it stores the newly selected file and
touches nothing else (in particular the status text is left as it was). -/
def selectFile (s : UploadState) (f : UploadFile) : UploadState :=
  { s with file := some f }

/-! ## Dashboard view (fetch orchestration and row rendering) -/

/-- An employee record as the Dashboard renders it: id plus three display
fields, each possibly absent (undefined or null in the JSON). -/
structure Employee where
  id : Int
  name : Option String
  department : Option String
  satisfaction_score : Option Int
deriving DecidableEq

/-- JavaScript logical-or with a string-or-absent left operand: the fallback
fires when the value is absent or falsy (the empty string). -/
def jsOrElse : Option String → String → String
  | none, d => d
  | some s, d => if s = "" then d else s

/-- JavaScript nullish coalescing with a number-or-absent left operand: the
fallback fires only when the value is absent (null or undefined); any number,
including zero, is shown. -/
def jsNullish : Option Int → String → String
  | none, d => d
  | some n, _ => toString n

/-- First table cell: the record id. -/
def cellId (emp : Employee) : String := toString emp.id

/-- Second table cell: the name, or the placeholder via logical-or. -/
def cellName (emp : Employee) : String := jsOrElse emp.name "N/A"

/-- Third table cell: the department, or the placeholder via logical-or. -/
def cellDepartment (emp : Employee) : String := jsOrElse emp.department "N/A"

/-- Fourth table cell: the satisfaction score, or the placeholder via nullish
coalescing. -/
def cellScore (emp : Employee) : String := jsNullish emp.satisfaction_score "N/A"

/-- A rendered row, cells joined as the spec scenarios write them. -/
def renderRow (emp : Employee) : String :=
  cellId emp ++ " / " ++ cellName emp ++ " / " ++ cellDepartment emp ++ " / " ++ cellScore emp

/-- The Dashboard component state: the employees list, the loading flag and
the error text (empty when no error). -/
structure DashboardState where
  employees : List Employee
  loading : Bool
  error : String
deriving DecidableEq

/-- The initial Dashboard state on mount. -/
def dashboardInit : DashboardState := { employees := [], loading := true, error := "" }

/-- How an asynchronous operation settles: resolution with a value, or
rejection carrying the raw error text. -/
inductive FetchOutcome (α : Type) where
  | resolved (v : α)
  | rejected (errText : String)

/-- The settlement of loadData: on resolution the employees are stored; on
rejection a fixed message is stored (the raw error text is dropped); the
finally clause ends the loading phase on both paths. -/
def loadDataSettle (s : DashboardState) (o : FetchOutcome (List Employee)) : DashboardState :=
  match o with
  | .resolved v => { s with employees := v, loading := false }
  | .rejected _ => { s with error := "Failed to load employee data.", loading := false }

/-- The whole loadData effect: exactly one call to fetchTestData, then the
settlement.  Returns the final state and the number of fetch calls issued
(the handlers issue none of their own, so the count is one on every path). -/
def runLoadData (s : DashboardState) (o : FetchOutcome (List Employee)) : DashboardState × Nat :=
  (loadDataSettle s o, 1)

/-! ## App view (plain axios fetch in a useEffect) -/

/-- The App component state, generic in the record type of the payload. -/
structure AppViewState (α : Type) where
  employees : List α
  loading : Bool
  error : Option String

/-- The settlement of the App fetch: then stores the payload and ends
loading; catch logs the raw error to the console only, stores a fixed
message, and ends loading. -/
def appSettle {α : Type} (s : AppViewState α) (o : FetchOutcome (List α)) : AppViewState α :=
  match o with
  | .resolved v => { s with employees := v, loading := false }
  | .rejected _ =>
      { s with error := some "Failed to connect to Backend (Is it running?)", loading := false }

/-- The whole App useEffect fetch: exactly one axios get, then the
settlement. -/
def runAppFetch {α : Type} (s : AppViewState α) (o : FetchOutcome (List α)) :
    AppViewState α × Nat :=
  (appSettle s o, 1)

/-- The records request the App view issues: plain axios get of a full url;
the gateway instance and its interceptor are not involved, and no headers
are configured. -/
def appRecordsRequest (_store : Option String) : RequestConfig :=
  { url := "http://127.0.0.1:8000/api/sim/test-data", authorization := none }

/-! ## View instances and unmounting -/

/-- A Dashboard view instance: whether it is still mounted, and its state.
The source registers no cleanup and keeps no mounted flag, generation counter
or cancellation token, so a settlement is delivered to the instance whether
or not it is still mounted. -/
structure MountedView where
  mounted : Bool
  state : DashboardState
deriving DecidableEq

/-- Delivery of a pending settlement to a Dashboard view instance: the
handlers call the state setters unconditionally; nothing consults the mounted
flag. -/
def deliverSettlement (v : MountedView) (o : FetchOutcome (List Employee)) : MountedView :=
  { v with state := loadDataSettle v.state o }

/-- An App view instance with its mounted flag; like the Dashboard, the
source keeps no guard. -/
structure MountedAppView (α : Type) where
  mounted : Bool
  state : AppViewState α

/-- Delivery of a pending settlement to an App view instance, again with no
mounted check in the source handlers. -/
def deliverAppSettlement {α : Type} (v : MountedAppView α) (o : FetchOutcome (List α)) :
    MountedAppView α :=
  { v with state := appSettle v.state o }

/-! ## Login view and session state -/

/-- An opaque user profile record returned by the authentication endpoint. -/
structure UserProfile where
  raw : String
deriving DecidableEq

/-- The process-wide session: the logged-in user and the bearer token. -/
structure Session where
  user : Option UserProfile
  token : Option String
deriving DecidableEq

/-- Modelled from the spec: the Session State operation login of the auth
context, whose implementation file is not under src (only its callers are).
Per the spec it sets both session fields atomically and persists the token to
the persistent token store.  Returns the new session and the new store. -/
def login (_s : Session) (_store : Option String) (u : UserProfile) (t : String) :
    Session × Option String :=
  ({ user := some u, token := some t }, some t)

/-- Whether a user is set in the session. -/
def isAuthenticated (s : Session) : Bool := s.user.isSome

/-- A session-state operation the login view may invoke. -/
inductive AuthOp where
  | loginCall (u : UserProfile) (t : String)
deriving DecidableEq

/-- Apply a list of invoked session operations to a session and token store. -/
def applyAuthOps (s : Session) (store : Option String) : List AuthOp → Session × Option String
  | [] => (s, store)
  | AuthOp.loginCall u t :: rest =>
      applyAuthOps (login s store u t).1 (login s store u t).2 rest

/-- The login view state: the two controlled inputs and the error text. -/
structure LoginViewState where
  email : String
  password : String
  error : String
deriving DecidableEq

/-- How the authentication call settles: resolution carrying the user and the
access token of the response body, or rejection carrying the raw error. -/
inductive LoginOutcome where
  | resolved (user : UserProfile) (access_token : String)
  | rejected (errText : String)

/-- The login submit handler: it clears the error, awaits loginUser; on
resolution it invokes login with the user and access token from the response;
on rejection it sets a fixed message and invokes nothing.  Returns the final
view state and the session operations invoked. -/
def handleSubmit (v : LoginViewState) (o : LoginOutcome) : LoginViewState × List AuthOp :=
  let v1 : LoginViewState := { v with error := "" }
  match o with
  | .resolved u t => (v1, [AuthOp.loginCall u t])
  | .rejected _ => ({ v1 with error := "Invalid credentials. Please try again." }, [])

/-! ## Theorems for the claims -/

/-- C1 counterexample: store the empty string as the token; the interceptor
leaves the Authorization header absent, while the claim, read at that stored
token, predicts the header Bearer followed by it. -/
theorem C1_counterexample :
    (interceptRequest (some "") { url := "/sim/test-data", authorization := none }).authorization
      = none
    ∧ (none : Option String) ≠ some ("Bearer " ++ "") := by
  decide

/-- C1 (amended): a request passing the interceptor carries no Authorization
header when no token is stored or the stored token is the empty string, and
carries exactly Bearer followed by the token when a nonempty token is
stored. -/
theorem C1_interceptor_header (cfg : RequestConfig) (t : String) :
    interceptRequest none cfg = cfg
    ∧ interceptRequest (some "") cfg = cfg
    ∧ (t ≠ "" → (interceptRequest (some t) cfg).authorization = some ("Bearer " ++ t)) := by
  refine ⟨rfl, by simp [interceptRequest], ?_⟩
  intro h
  simp [interceptRequest, h]

/-- C1 witness: the amended interceptor theorem applied to a concrete
nonempty token. -/
theorem C1_witness :
    ("tok123" : String) ≠ ""
    ∧ (interceptRequest (some "tok123")
        { url := "/auth/login", authorization := none }).authorization
      = some ("Bearer " ++ "tok123") := by
  refine ⟨by decide, ?_⟩
  exact (C1_interceptor_header { url := "/auth/login", authorization := none } "tok123").2.2
    (by decide)

/-- C2 counterexample: with the token tok stored, the upload submission still
carries no authorization header, while the claim predicts a bearer credential
on every outgoing request. -/
theorem C2_counterexample :
    (buildUploadRequest (some "tok")).authorization = none
    ∧ (none : Option String) ≠ some ("Bearer " ++ "tok") := by
  decide

/-- C2 (amended): requests issued through the gateway client carry the bearer
header exactly when a nonempty token is stored; the upload submission and the
App view records request are issued outside the gateway client and never
carry an authorization header, whatever the store holds. -/
theorem C2_bearer_scope (op : GatewayOp) (store : Option String) (t : String) :
    ((store = none ∨ store = some "") → (gatewayRequest op store).authorization = none)
    ∧ (t ≠ "" → (gatewayRequest op (some t)).authorization = some ("Bearer " ++ t))
    ∧ (buildUploadRequest store).authorization = none
    ∧ (appRecordsRequest store).authorization = none := by
  refine ⟨?_, ?_, rfl, rfl⟩
  · rintro (rfl | rfl) <;> simp [gatewayRequest, interceptRequest]
  · intro h
    simp [gatewayRequest, interceptRequest, h]

/-- C2 witness: the amended bearer-scope theorem applied to a concrete store
and operation. -/
theorem C2_witness :
    ("tok" : String) ≠ ""
    ∧ (gatewayRequest GatewayOp.fetchTestData (some "tok")).authorization
        = some ("Bearer " ++ "tok")
    ∧ (buildUploadRequest (some "tok")).authorization = none := by
  have h := C2_bearer_scope GatewayOp.fetchTestData (some "tok") "tok"
  exact ⟨by decide, h.2.1 (by decide), h.2.2.1⟩

/-- C3: submit with no file selected is a no-op issuing no network call; with
a file selected it issues exactly one call, sets the success status on a 2xx
response, a failed status on any non-2xx response, and a failed status on a
transport exception. -/
theorem C3_submit_contract (s : UploadState) (o : UploadOutcome) (st : Nat) :
    (s.file = none → handleUpload s o = (s, 0))
    ∧ (s.file ≠ none → (handleUpload s o).2 = 1)
    ∧ (s.file ≠ none → 200 ≤ st → st ≤ 299 →
        (handleUpload s (UploadOutcome.response st)).1.status = "Upload successful!")
    ∧ (s.file ≠ none → (st < 200 ∨ 299 < st) →
        (handleUpload s (UploadOutcome.response st)).1.status
          = "Upload failed. Please try again.")
    ∧ (s.file ≠ none →
        (handleUpload s UploadOutcome.exception).1.status
          = "Error connecting to the server.") := by
  obtain ⟨file, status⟩ := s
  cases file with
  | none =>
      exact ⟨fun _ => rfl, fun h => absurd rfl h, fun h => absurd rfl h,
        fun h => absurd rfl h, fun h => absurd rfl h⟩
  | some f =>
      refine ⟨?_, ?_, ?_, ?_, ?_⟩
      · intro h; simp at h
      · intro _
        cases o with
        | response code => by_cases hok : resOk code <;> simp [handleUpload, hok]
        | exception => rfl
      · intro _ h1 h2
        have hok : resOk st = true := by
          simp only [resOk, decide_eq_true_eq]
          omega
        simp [handleUpload, hok]
      · intro _ h12
        have hok : resOk st = false := by
          simp only [resOk, decide_eq_false_iff_not]
          omega
        simp [handleUpload, hok]
      · intro _; rfl

/-- C3 witness: the submit contract applied at a concrete selected file with
a 200 response, and at a concrete state with no file selected. -/
theorem C3_witness :
    (handleUpload { file := some "data.csv", status := "" }
        (UploadOutcome.response 200)).1.status = "Upload successful!"
    ∧ handleUpload { file := none, status := "" } UploadOutcome.exception
        = ({ file := none, status := "" }, 0) := by
  constructor
  · exact (C3_submit_contract { file := some "data.csv", status := "" }
      (UploadOutcome.response 200) 200).2.2.1 (by decide) (by decide) (by decide)
  · exact (C3_submit_contract { file := none, status := "" } UploadOutcome.exception 0).1 rfl

/-- C4 counterexample: a record whose name field is present but equal to the
empty string renders the placeholder, while the claim predicts that a present
name is shown. -/
theorem C4_counterexample :
    (⟨3, some "", some "Sales", some 4⟩ : Employee).name = some ""
    ∧ cellName ⟨3, some "", some "Sales", some 4⟩ = "N/A"
    ∧ ("N/A" : String) ≠ "" := by
  decide

/-- C4 (amended): the row shows the id always; the name and department when
present and nonempty, with the placeholder when absent or empty; the
satisfaction score whenever non-null, with the placeholder when absent; and
the two spec scenarios render exactly as written. -/
theorem C4_row_rendering (emp : Employee) :
    cellId emp = toString emp.id
    ∧ (emp.name = none → cellName emp = "N/A")
    ∧ (emp.name = some "" → cellName emp = "N/A")
    ∧ (∀ s, emp.name = some s → s ≠ "" → cellName emp = s)
    ∧ (emp.department = none → cellDepartment emp = "N/A")
    ∧ (emp.department = some "" → cellDepartment emp = "N/A")
    ∧ (∀ s, emp.department = some s → s ≠ "" → cellDepartment emp = s)
    ∧ (emp.satisfaction_score = none → cellScore emp = "N/A")
    ∧ (∀ n, emp.satisfaction_score = some n → cellScore emp = toString n)
    ∧ renderRow ⟨1, some "Ann", some "Sales", some 4⟩ = "1 / Ann / Sales / 4"
    ∧ renderRow ⟨2, none, none, none⟩ = "2 / N/A / N/A / N/A" := by
  refine ⟨rfl, ?_, ?_, ?_, ?_, ?_, ?_, ?_, ?_, by decide, by decide⟩
  · intro h; simp [cellName, jsOrElse, h]
  · intro h; simp [cellName, jsOrElse, h]
  · intro s hs hne; simp [cellName, jsOrElse, hs, hne]
  · intro h; simp [cellDepartment, jsOrElse, h]
  · intro h; simp [cellDepartment, jsOrElse, h]
  · intro s hs hne; simp [cellDepartment, jsOrElse, hs, hne]
  · intro h; simp [cellScore, jsNullish, h]
  · intro n hn; simp [cellScore, jsNullish, hn]

/-- C4 witness: the amended rendering theorem applied at the two concrete
scenario records. -/
theorem C4_witness :
    cellName ⟨1, some "Ann", some "Sales", some 4⟩ = "Ann"
    ∧ cellScore ⟨2, none, none, none⟩ = "N/A" := by
  constructor
  · exact (C4_row_rendering ⟨1, some "Ann", some "Sales", some 4⟩).2.2.2.1 "Ann" rfl (by decide)
  · exact (C4_row_rendering ⟨2, none, none, none⟩).2.2.2.2.2.2.2.1 rfl

/-- C5: on rejection of a view fetch, the stored message is the fixed
user-facing string and does not depend on the raw error text, the loading
phase ends, and the run issues exactly one call on every path (no automatic
retry), for both the Dashboard loadData and the App useEffect fetch. -/
theorem C5_fetch_error_policy {α : Type} (s : DashboardState) (t : AppViewState α)
    (e : String) :
    (runLoadData s (FetchOutcome.rejected e)).1.error = "Failed to load employee data."
    ∧ (runLoadData s (FetchOutcome.rejected e)).1.loading = false
    ∧ (runLoadData s (FetchOutcome.rejected e)).2 = 1
    ∧ (∀ f, runLoadData s (FetchOutcome.rejected e) = runLoadData s (FetchOutcome.rejected f))
    ∧ (runAppFetch t (FetchOutcome.rejected e)).1.error
        = some "Failed to connect to Backend (Is it running?)"
    ∧ (runAppFetch t (FetchOutcome.rejected e)).1.loading = false
    ∧ (runAppFetch t (FetchOutcome.rejected e)).2 = 1
    ∧ (∀ f, runAppFetch t (FetchOutcome.rejected e) = runAppFetch t (FetchOutcome.rejected f)) :=
  ⟨rfl, rfl, rfl, fun _ => rfl, rfl, rfl, rfl, fun _ => rfl⟩

/-- C6: when the authentication call rejects, the submit handler invokes no
session operation, the session and token store are left exactly as they were
(so an unauthenticated session stays unauthenticated), and the view error is
the fixed invalid-credentials message. -/
theorem C6_rejected_login (v : LoginViewState) (s : Session) (store : Option String)
    (e : String) :
    (handleSubmit v (LoginOutcome.rejected e)).2 = []
    ∧ applyAuthOps s store (handleSubmit v (LoginOutcome.rejected e)).2 = (s, store)
    ∧ isAuthenticated (applyAuthOps s store (handleSubmit v (LoginOutcome.rejected e)).2).1
        = isAuthenticated s
    ∧ (handleSubmit v (LoginOutcome.rejected e)).1.error
        = "Invalid credentials. Please try again." :=
  ⟨rfl, rfl, rfl, rfl⟩

/-- C7 counterexample: delivering a settlement to an unmounted Dashboard view
instance changes it, so no defensive check prevents the state write that the
claim says is guarded against. -/
theorem C7_counterexample :
    deliverSettlement { mounted := false, state := dashboardInit }
        (FetchOutcome.rejected "boom")
      ≠ { mounted := false, state := dashboardInit } := by
  decide

/-- C7 (amended): the fetch logic contains no defensive check; the settlement
handlers perform their state writes regardless of the mounted flag, for both
the Dashboard and the App view. -/
theorem C7_no_unmount_guard {α : Type} (s : DashboardState) (t : AppViewState α)
    (o : FetchOutcome (List Employee)) (p : FetchOutcome (List α)) (m : Bool) :
    (deliverSettlement { mounted := false, state := s } o).state = loadDataSettle s o
    ∧ (deliverSettlement { mounted := m, state := s } o).state
        = (deliverSettlement { mounted := true, state := s } o).state
    ∧ (deliverAppSettlement { mounted := false, state := t } p).state = appSettle t p
    ∧ (deliverAppSettlement { mounted := m, state := t } p).state
        = (deliverAppSettlement { mounted := true, state := t } p).state :=
  ⟨rfl, rfl, rfl, rfl⟩

/-- C8 counterexample: the gateway client exports three operations, not
four; no exported operation requests the upload path, so upload-file is not
among the operations of the client. -/
theorem C8_counterexample :
    gatewayPaths = ["/sim/test-data", "/auth/login", "/auth/register"]
    ∧ gatewayPaths.length = 3
    ∧ "/upload" ∉ gatewayPaths := by
  decide

/-- C8 (amended): the gateway client exposes exactly three operations, each
issuing one request whose url is the single fixed base address followed by
the operation path; the upload is issued by a raw fetch outside the client,
though its literal url equals the same base address followed by the upload
path. -/
theorem C8_gateway_base_address (op : GatewayOp) (store : Option String) :
    (gatewayRequest op store).url = baseURL ++ opPath op
    ∧ gatewayPaths.length = 3
    ∧ (buildUploadRequest store).url = baseURL ++ "/upload" := by
  refine ⟨?_, rfl, rfl⟩
  cases store with
  | none => rfl
  | some tok => by_cases h : tok = "" <;> simp [gatewayRequest, interceptRequest, h]

/-- C9 counterexample: re-selecting a file on a settled upload view keeps the
old status text, while the claim predicts a reset to the empty status. -/
theorem C9_counterexample :
    selectFile { file := some "old.csv", status := "Upload successful!" } "new.csv"
      = { file := some "new.csv", status := "Upload successful!" }
    ∧ ("Upload successful!" : String) ≠ "" := by
  decide

/-- C9 (amended): re-selecting a file replaces the selected file and leaves
the status text unchanged; the settled statuses are not terminal, because the
file stays selected and a further submit issues another network call and
overwrites the status with a fresh settled value. -/
theorem C9_reselect_and_resubmit (s : UploadState) (f : UploadFile) (o : UploadOutcome) :
    (selectFile s f).file = some f
    ∧ (selectFile s f).status = s.status
    ∧ (s.file ≠ none → (handleUpload s o).2 = 1)
    ∧ (s.file ≠ none →
        ((handleUpload s o).1.status = "Upload successful!"
          ∨ (handleUpload s o).1.status = "Upload failed. Please try again."
          ∨ (handleUpload s o).1.status = "Error connecting to the server.")) := by
  refine ⟨rfl, rfl, ?_, ?_⟩
  · intro h
    obtain ⟨file, status⟩ := s
    cases file with
    | none => exact absurd rfl h
    | some g =>
        cases o with
        | response code => by_cases hok : resOk code <;> simp [handleUpload, hok]
        | exception => rfl
  · intro h
    obtain ⟨file, status⟩ := s
    cases file with
    | none => exact absurd rfl h
    | some g =>
        cases o with
        | response code =>
            by_cases hok : resOk code
            · left
              simp [handleUpload, hok]
            · right; left
              simp [handleUpload, hok]
        | exception => right; right; rfl

/-- C9 witness: the amended theorem applied at a settled state with a file
still selected and a 500 response to the further submit. -/
theorem C9_witness :
    (selectFile { file := some "old.csv", status := "Upload successful!" } "new.csv").status
      = "Upload successful!"
    ∧ (handleUpload { file := some "old.csv", status := "Upload successful!" }
        (UploadOutcome.response 500)).2 = 1 := by
  have h := C9_reselect_and_resubmit { file := some "old.csv", status := "Upload successful!" }
    "new.csv" (UploadOutcome.response 500)
  exact ⟨h.2.1, h.2.2.1 (by decide)⟩

/-- C10: the score cell shows any non-null score, in particular the digit
zero for a zero score, while the name and department cells show the
placeholder for the empty string, because logical-or fires on every falsy
value and nullish coalescing only on null or undefined. -/
theorem C10_fallback_conditions (emp : Employee) :
    (emp.satisfaction_score = some 0 → cellScore emp = "0")
    ∧ (∀ n, emp.satisfaction_score = some n → cellScore emp = toString n)
    ∧ (emp.name = some "" → cellName emp = "N/A")
    ∧ (emp.department = some "" → cellDepartment emp = "N/A") := by
  refine ⟨?_, ?_, ?_, ?_⟩
  · intro h
    simp [cellScore, jsNullish, h]
    decide
  · intro n hn
    simp [cellScore, jsNullish, hn]
  · intro h
    simp [cellName, jsOrElse, h]
  · intro h
    simp [cellDepartment, jsOrElse, h]

/-- C10 witness: the fallback theorem applied at a record with a zero score
and empty name and department strings. -/
theorem C10_witness :
    cellScore ⟨5, some "", some "", some 0⟩ = "0"
    ∧ cellName ⟨5, some "", some "", some 0⟩ = "N/A" := by
  have h := C10_fallback_conditions ⟨5, some "", some "", some 0⟩
  exact ⟨h.1 rfl, h.2.2.1 rfl⟩
